import Mathlib

/-!
Verification of the METAR-map decision logic.

The definitions below are a shallow embedding of the repository's
TypeScript decision core:

* `src/utils/flightCategory.ts` — `calculateFlightCategory`, `parseVisibility`
* `src/utils/colorMapper.ts` — `getColorForConditions`, `getLegendColors`
* `src/services/metarService.ts` — `detectLightning`

JavaScript numbers are embedded as `Rat` (visibility values) and `Int`
(wind speeds, cloud bases, color channels); `null`/`undefined` become
`Option`; JavaScript strings become Lean `String` (or `List Char` for
character-level scanning).  The non-finite double `Infinity` is outside
the model: the embedded float parser returns `none` where JavaScript
`parseFloat` would return a non-finite value, and no claim below
depends on non-finite inputs.
-/

namespace MetarMap

/-! ## Data model (src/types.ts) -/

/-- RGB color triple (`Color` in src/types.ts). -/
structure Color where
  r : Int
  g : Int
  b : Int
deriving DecidableEq, Repr

/-- Cloud layer from a METAR report (`CloudLayer` in src/types.ts).
`cover` and `base` are both optional in the source. -/
structure CloudLayer where
  cover : Option String
  base : Option Int
deriving DecidableEq, Repr

/-- The four defined flight categories.  The TypeScript union
`FlightCategory` also admits `null`; that case is embedded as
`Option FlightCat` = `none`. -/
inductive FlightCat
  | VFR
  | MVFR
  | IFR
  | LIFR
deriving DecidableEq, Repr

/-- Processed per-airport conditions (`AirportConditions` in src/types.ts).
`flightCategory` is embedded as `Option String` rather than
`Option FlightCat` because the resolver in colorMapper.ts switches on the
raw string and has defensive `default` branches for values outside the
enum; `none` stands for `null`/`undefined`. -/
structure AirportConditions where
  flightCategory : Option String
  windSpeed : Int
  windGustSpeed : Int
  windGust : Bool
  lightning : Bool
deriving DecidableEq, Repr

/-- The color palette part of the configuration (`Config.colors`). -/
structure PaletteColors where
  vfr : Color
  vfrFade : Color
  mvfr : Color
  mvfrFade : Color
  ifr : Color
  ifrFade : Color
  lifr : Color
  lifrFade : Color
  clear : Color
  lightning : Color
  highWinds : Color
deriving DecidableEq, Repr

/-- The slice of the application configuration (`Config` in src/types.ts)
read by the color resolver and the legend resolver. -/
structure Config where
  colors : PaletteColors
  activateWindAnimation : Bool
  activateLightningAnimation : Bool
  fadeInsteadOfBlink : Bool
  windBlinkThreshold : Int
  highWindsThreshold : Int
deriving DecidableEq, Repr

/-! ## Flight category calculation (src/utils/flightCategory.ts) -/

/-- Ceiling category thresholds from `calculateFlightCategory`:
`<500 → LIFR, <1000 → IFR, <3000 → MVFR, else VFR` (strict `<`). -/
def categoryForCeiling (ceiling : Int) : FlightCat :=
  if ceiling < 500 then .LIFR
  else if ceiling < 1000 then .IFR
  else if ceiling < 3000 then .MVFR
  else .VFR

/-- Visibility category thresholds from `calculateFlightCategory`:
`<1 → LIFR, <3 → IFR, <5 → MVFR, else VFR` (strict `<`). -/
def categoryForVis (v : Rat) : FlightCat :=
  if v < 1 then .LIFR
  else if v < 3 then .IFR
  else if v < 5 then .MVFR
  else .VFR

/-- The `for (const layer of clouds)` loop of `calculateFlightCategory`,
written as a recursion over the list with the mutable `ceiling`
variable as accumulator.  A layer counts toward the ceiling when
`layer.cover || ''` is `BKN`, `OVC` or `OVX`; its base is
`layer.base || 0`; the accumulator keeps the strictly smaller base. -/
def findCeiling : List CloudLayer → Option Int → Option Int
  | [], ceiling => ceiling
  | layer :: rest, ceiling =>
    let cover := layer.cover.getD ""
    if cover = "BKN" ∨ cover = "OVC" ∨ cover = "OVX" then
      let cloudBase := layer.base.getD 0
      match ceiling with
      | none => findCeiling rest (some cloudBase)
      | some c =>
        if cloudBase < c then findCeiling rest (some cloudBase)
        else findCeiling rest (some c)
    else findCeiling rest ceiling

/-- The literal `categories` array of `calculateFlightCategory`. -/
def flightCats : List FlightCat := [.VFR, .MVFR, .IFR, .LIFR]

/-- `calculateFlightCategory` from src/utils/flightCategory.ts.
Returns `none` exactly where the source returns `null` (the guard on
missing or non-positive visibility; the final array access
`categories[Math.max(...)]` could in principle also produce
JavaScript `undefined`, likewise embedded as `none`, but it never
does — see the safety theorem below). -/
def calculateFlightCategory
    (visibility : Option Rat) (skyConditions : Option (List CloudLayer)) :
    Option FlightCat :=
  match visibility with
  | none => none
  | some v =>
    if v ≤ 0 then none
    else
      let clouds := skyConditions.getD []
      let ceiling : Int := (findCeiling clouds none).getD 10000
      let ceilingCategory := categoryForCeiling ceiling
      let visCategory := categoryForVis v
      let ceilingIndex := flightCats.indexOf ceilingCategory
      let visIndex := flightCats.indexOf visCategory
      flightCats.get? (Nat.max ceilingIndex visIndex)

/-! ## Specification-side restatement of the classifier (spec §4.2)

These definitions follow the wording of the specification — ceiling as a
minimum over qualifying layers, result as the more restrictive of the two
derived categories under the severity order VFR < MVFR < IFR < LIFR —
and are proved equivalent to `calculateFlightCategory` below. -/

/-- Bases of the layers that count toward a ceiling, per the spec:
layers whose cover is broken (`BKN`), overcast (`OVC`) or obscured
(`OVX`); a layer without a base is treated as base 0. -/
def ceilingBases (clouds : List CloudLayer) : List Int :=
  (clouds.filter fun l =>
      decide (l.cover.getD "" = "BKN" ∨ l.cover.getD "" = "OVC" ∨
        l.cover.getD "" = "OVX")).map
    fun l => l.base.getD 0

/-- Minimum of a list of integers, `none` on the empty list. -/
def minimumOfList : List Int → Option Int
  | [] => none
  | b :: bs => some (bs.foldl min b)

/-- Severity rank: VFR < MVFR < IFR < LIFR. -/
def severity : FlightCat → Nat
  | .VFR => 0
  | .MVFR => 1
  | .IFR => 2
  | .LIFR => 3

/-- The more restrictive (worse) of two categories. -/
def moreRestrictive (a b : FlightCat) : FlightCat :=
  if severity a ≤ severity b then b else a

/-- Spec-side ceiling category: no qualifying layer means an unbounded
ceiling, which classifies as VFR; otherwise classify the minimum base. -/
def specCeilingCategory (clouds : List CloudLayer) : FlightCat :=
  match minimumOfList (ceilingBases clouds) with
  | none => .VFR
  | some c => categoryForCeiling c

/-- Spec-side classifier result for positive visibility: the more
restrictive of the ceiling-derived and visibility-derived categories. -/
def specFlightCategory (v : Rat) (clouds : List CloudLayer) : FlightCat :=
  moreRestrictive (specCeilingCategory clouds) (categoryForVis v)

/-! ### Equivalence of the loop with the spec-side minimum -/

lemma findCeiling_some (clouds : List CloudLayer) (a : Int) :
    findCeiling clouds (some a) = some ((ceilingBases clouds).foldl min a) := by
  induction clouds generalizing a with
  | nil => rfl
  | cons layer rest ih =>
    by_cases h : layer.cover.getD "" = "BKN" ∨ layer.cover.getD "" = "OVC" ∨
        layer.cover.getD "" = "OVX"
    · have hbases : ceilingBases (layer :: rest) =
          layer.base.getD 0 :: ceilingBases rest := by
        simp [ceilingBases, h]
      rw [hbases]
      show (if layer.cover.getD "" = "BKN" ∨ layer.cover.getD "" = "OVC" ∨
          layer.cover.getD "" = "OVX" then _ else _) = _
      rw [if_pos h]
      by_cases hlt : layer.base.getD 0 < a
      · show (if layer.base.getD 0 < a then findCeiling rest (some (layer.base.getD 0))
            else findCeiling rest (some a)) = _
        rw [if_pos hlt, ih]
        have hmin : min a (layer.base.getD 0) = layer.base.getD 0 := by omega
        rw [List.foldl, hmin]
      · show (if layer.base.getD 0 < a then findCeiling rest (some (layer.base.getD 0))
            else findCeiling rest (some a)) = _
        rw [if_neg hlt, ih]
        have hmin : min a (layer.base.getD 0) = a := by omega
        rw [List.foldl, hmin]
    · have hbases : ceilingBases (layer :: rest) = ceilingBases rest := by
        simp [ceilingBases, h]
      rw [hbases]
      show (if layer.cover.getD "" = "BKN" ∨ layer.cover.getD "" = "OVC" ∨
          layer.cover.getD "" = "OVX" then _ else _) = _
      rw [if_neg h]
      exact ih a

lemma findCeiling_none (clouds : List CloudLayer) :
    findCeiling clouds none = minimumOfList (ceilingBases clouds) := by
  induction clouds with
  | nil => rfl
  | cons layer rest ih =>
    by_cases h : layer.cover.getD "" = "BKN" ∨ layer.cover.getD "" = "OVC" ∨
        layer.cover.getD "" = "OVX"
    · have hbases : ceilingBases (layer :: rest) =
          layer.base.getD 0 :: ceilingBases rest := by
        simp [ceilingBases, h]
      rw [hbases]
      show (if layer.cover.getD "" = "BKN" ∨ layer.cover.getD "" = "OVC" ∨
          layer.cover.getD "" = "OVX" then _ else _) = _
      rw [if_pos h]
      show findCeiling rest (some (layer.base.getD 0)) = _
      rw [findCeiling_some]
      rfl
    · have hbases : ceilingBases (layer :: rest) = ceilingBases rest := by
        simp [ceilingBases, h]
      rw [hbases]
      show (if layer.cover.getD "" = "BKN" ∨ layer.cover.getD "" = "OVC" ∨
          layer.cover.getD "" = "OVX" then _ else _) = _
      rw [if_neg h]
      exact ih

/-- The `indexOf`/`Math.max`/array-lookup dance of the source computes
exactly the more restrictive of the two categories. -/
lemma get_max_indexOf (a b : FlightCat) :
    flightCats.get? (Nat.max (flightCats.indexOf a) (flightCats.indexOf b)) =
      some (moreRestrictive a b) := by
  cases a <;> cases b <;> rfl

/-- Core equivalence: for positive visibility the source classifier
agrees with the spec-side classifier. -/
lemma calc_eq_spec (v : Rat) (clouds : Option (List CloudLayer)) (h : 0 < v) :
    calculateFlightCategory (some v) clouds =
      some (specFlightCategory v (clouds.getD [])) := by
  show (if v ≤ 0 then none else _) = _
  rw [if_neg (not_le.mpr h)]
  rw [findCeiling_none]
  unfold specFlightCategory specCeilingCategory
  cases hmin : minimumOfList (ceilingBases (clouds.getD [])) with
  | none =>
    have h10000 : categoryForCeiling ((none : Option Int).getD 10000) = .VFR := by
      decide
    rw [h10000]
    exact get_max_indexOf .VFR (categoryForVis v)
  | some c =>
    exact get_max_indexOf (categoryForCeiling c) (categoryForVis v)

/-! ## Claims about the classifier -/

/-- C3: for every cloud-layer list (any contents, empty, or absent),
`calculateFlightCategory` returns UNKNOWN (`none`) whenever the
visibility input is UNKNOWN (`none`) or non-positive.  The function is
total, so no exception can be raised. -/
theorem c3_unknown_visibility_gives_unknown :
    (∀ clouds : Option (List CloudLayer),
        calculateFlightCategory none clouds = none) ∧
    ∀ (v : Rat) (clouds : Option (List CloudLayer)),
      v ≤ 0 → calculateFlightCategory (some v) clouds = none := by
  refine ⟨fun clouds => rfl, fun v clouds hv => ?_⟩
  show (if v ≤ 0 then none else _) = _
  rw [if_pos hv]

theorem c3_unknown_visibility_gives_unknown_witness :
    calculateFlightCategory none (some [⟨some "OVC", some 100⟩]) = none ∧
    ((0 : Rat) ≤ 0 ∧
      calculateFlightCategory (some 0) (some [⟨some "OVC", some 100⟩]) = none) :=
  ⟨c3_unknown_visibility_gives_unknown.1 (some [⟨some "OVC", some 100⟩]),
    le_refl 0,
    c3_unknown_visibility_gives_unknown.2 0 (some [⟨some "OVC", some 100⟩])
      (le_refl 0)⟩

/-- C4: strict `<` comparisons make exact-boundary inputs resolve to the
better category: visibility 10 with no clouds is VFR, an overcast base of
exactly 3000 is still VFR, and 2999 is MVFR. -/
theorem c4_boundary_values_resolve_to_better_category :
    calculateFlightCategory (some 10) (some []) = some .VFR ∧
    calculateFlightCategory (some 10) (some [⟨some "OVC", some 3000⟩]) =
      some .VFR ∧
    calculateFlightCategory (some 10) (some [⟨some "OVC", some 2999⟩]) =
      some .MVFR := by
  refine ⟨?_, ?_, ?_⟩ <;>
    norm_num [calculateFlightCategory, findCeiling, categoryForCeiling,
      categoryForVis, flightCats]

/-- C5: for every positive visibility and every cloud list (present or
absent), the source classifier returns exactly the more restrictive of
the ceiling-derived category (minimum base over BKN/OVC/OVX layers,
missing base treated as 0, no such layer treated as unbounded) and the
visibility-derived category, under severity order VFR < MVFR < IFR <
LIFR.  The witness instantiates the spec's example
`classify(0.9, [{SKC}]) = LIFR`. -/
theorem c5_result_is_worse_of_ceiling_and_visibility
    (v : Rat) (clouds : Option (List CloudLayer)) (h : 0 < v) :
    calculateFlightCategory (some v) clouds =
      some (specFlightCategory v (clouds.getD [])) :=
  calc_eq_spec v clouds h

theorem c5_result_is_worse_of_ceiling_and_visibility_witness :
    (0 : Rat) < 9 / 10 ∧
    calculateFlightCategory (some (9 / 10)) (some [⟨some "SKC", none⟩]) =
      some FlightCat.LIFR := by
  have hpos : (0 : Rat) < 9 / 10 := by norm_num
  refine ⟨hpos, ?_⟩
  rw [c5_result_is_worse_of_ceiling_and_visibility (9 / 10)
    (some [⟨some "SKC", none⟩]) hpos]
  simp only [Option.getD_some]
  have h1 : specCeilingCategory [⟨some "SKC", none⟩] = .VFR := by decide
  have h2 : categoryForVis (9 / 10) = .LIFR := by norm_num [categoryForVis]
  rw [specFlightCategory, h1, h2]
  decide

/-- C10: once visibility is positive, the UNKNOWN branch is unreachable —
the classifier always produces one of the four defined categories, no
matter what the cloud list contains. -/
theorem c10_positive_visibility_never_unknown
    (v : Rat) (clouds : Option (List CloudLayer)) (h : 0 < v) :
    (calculateFlightCategory (some v) clouds).isSome = true := by
  rw [calc_eq_spec v clouds h]
  rfl

theorem c10_positive_visibility_never_unknown_witness :
    (0 : Rat) < 1 ∧
    (calculateFlightCategory (some 1) (some [⟨none, none⟩])).isSome = true :=
  ⟨one_pos,
    c10_positive_visibility_never_unknown 1 (some [⟨none, none⟩]) one_pos⟩

/-! ## Color resolution (src/utils/colorMapper.ts) -/

/-- JavaScript truthiness of `conditions.flightCategory` (a nullable
string): `null`, `undefined` and the empty string are falsy. -/
def truthyCategory : Option String → Bool
  | none => false
  | some s => decide (s ≠ "")

/-- The `isWindy` flag of `getColorForConditions`:
wind animation enabled, on the wind phase, and either the wind speed
reaches the blink threshold or the gust flag is set. -/
def isWindyFlag (c : AirportConditions) (windCycle : Bool) (config : Config) :
    Bool :=
  config.activateWindAnimation && windCycle &&
    (decide (config.windBlinkThreshold ≤ c.windSpeed) || c.windGust)

/-- The `isHighWinds` flag of `getColorForConditions`: `isWindy` holds,
the high-wind threshold is not the `-1` sentinel, and wind speed or gust
speed reaches it. -/
def isHighWindsFlag (c : AirportConditions) (windCycle : Bool)
    (config : Config) : Bool :=
  isWindyFlag c windCycle config &&
    decide (config.highWindsThreshold ≠ -1) &&
    (decide (config.highWindsThreshold ≤ c.windSpeed) ||
      decide (config.highWindsThreshold ≤ c.windGustSpeed))

/-- The `showLightning` flag of `getColorForConditions`: lightning
animation enabled, on the phase opposite to the wind phase, and the
condition has lightning. -/
def showLightningFlag (c : AirportConditions) (windCycle : Bool)
    (config : Config) : Bool :=
  config.activateLightningAnimation && !windCycle && c.lightning

/-- The `switch (conditions.flightCategory)` over fade colors, with its
`default` branch returning the clear color. -/
def categoryFadeColor (cat : Option String) (p : PaletteColors) : Color :=
  if cat = some "VFR" then p.vfrFade
  else if cat = some "MVFR" then p.mvfrFade
  else if cat = some "IFR" then p.ifrFade
  else if cat = some "LIFR" then p.lifrFade
  else p.clear

/-- The final `switch (conditions.flightCategory)` over normal colors,
with its `default` branch returning the clear color. -/
def categoryColor (cat : Option String) (p : PaletteColors) : Color :=
  if cat = some "VFR" then p.vfr
  else if cat = some "MVFR" then p.mvfr
  else if cat = some "IFR" then p.ifr
  else if cat = some "LIFR" then p.lifr
  else p.clear

/-- `getColorForConditions` from src/utils/colorMapper.ts: the priority
chain absent/UNKNOWN → lightning → high winds → windy → category. -/
def getColorForConditions (conditions : Option AirportConditions)
    (windCycle : Bool) (config : Config) : Color :=
  match conditions with
  | none => config.colors.clear
  | some c =>
    if truthyCategory c.flightCategory = false then config.colors.clear
    else if showLightningFlag c windCycle config then config.colors.lightning
    else if isHighWindsFlag c windCycle config then config.colors.highWinds
    else if isWindyFlag c windCycle config then
      if config.fadeInsteadOfBlink then
        categoryFadeColor c.flightCategory config.colors
      else config.colors.clear
    else categoryColor c.flightCategory config.colors

/-- `getLegendColors` from src/utils/colorMapper.ts: the 7 legend slots,
in push order — VFR, MVFR, IFR, LIFR swatches, then the lightning, windy
and high-wind indicators. -/
def getLegendColors (windCycle : Bool) (config : Config) : List Color :=
  [config.colors.vfr,
   config.colors.mvfr,
   config.colors.ifr,
   config.colors.lifr,
   if config.activateLightningAnimation then
     (if windCycle then config.colors.vfr else config.colors.lightning)
   else config.colors.clear,
   if config.activateWindAnimation then
     (if windCycle then
       (if config.fadeInsteadOfBlink then config.colors.vfrFade
        else config.colors.clear)
      else config.colors.vfr)
   else config.colors.clear,
   if config.activateWindAnimation && decide (config.highWindsThreshold ≠ -1)
   then (if windCycle then config.colors.highWinds else config.colors.vfr)
   else config.colors.clear]

/-- The mock configuration of the repository's colorMapper unit tests,
used as a concrete anchor for witnesses and counterexamples. -/
def mockConfig : Config :=
  { colors :=
      { vfr := ⟨255, 0, 0⟩
        vfrFade := ⟨128, 0, 0⟩
        mvfr := ⟨0, 0, 255⟩
        mvfrFade := ⟨0, 0, 128⟩
        ifr := ⟨0, 255, 0⟩
        ifrFade := ⟨0, 128, 0⟩
        lifr := ⟨255, 0, 255⟩
        lifrFade := ⟨128, 0, 128⟩
        clear := ⟨0, 0, 0⟩
        lightning := ⟨255, 255, 255⟩
        highWinds := ⟨255, 255, 0⟩ }
    activateWindAnimation := true
    activateLightningAnimation := true
    fadeInsteadOfBlink := false
    windBlinkThreshold := 15
    highWindsThreshold := 25 }

/-! ## Claims about the color resolver -/

/-- C2: for every phase and configuration, an absent condition record or
one whose flight category is UNKNOWN (`none`) resolves to the clear
color, regardless of wind, gust or lightning fields. -/
theorem c2_absent_or_unknown_gives_clear :
    (∀ (windCycle : Bool) (config : Config),
        getColorForConditions none windCycle config = config.colors.clear) ∧
    ∀ (c : AirportConditions) (windCycle : Bool) (config : Config),
      c.flightCategory = none →
      getColorForConditions (some c) windCycle config = config.colors.clear := by
  refine ⟨fun wc cfg => rfl, fun c wc cfg hcat => ?_⟩
  show (if truthyCategory c.flightCategory = false then _ else _) = _
  rw [hcat]
  rfl

theorem c2_absent_or_unknown_gives_clear_witness :
    getColorForConditions none true mockConfig = mockConfig.colors.clear ∧
    getColorForConditions (some ⟨none, 100, 100, true, true⟩) false mockConfig =
      mockConfig.colors.clear :=
  ⟨c2_absent_or_unknown_gives_clear.1 true mockConfig,
    c2_absent_or_unknown_gives_clear.2 ⟨none, 100, 100, true, true⟩ false
      mockConfig rfl⟩

/-- C1: with lightning display enabled, on the lightning-eligible phase
(the phase opposite the wind-blink phase, `windCycle = false`), a
condition record with a defined category, lightning, and wind/gust
values satisfying the high-wind rule resolves to the lightning color:
the lightning rule is evaluated before, and wins over, the high-wind
rule. -/
theorem c1_lightning_beats_high_wind
    (c : AirportConditions) (config : Config) (s : String)
    (hcat : c.flightCategory = some s) (hs : s ≠ "")
    (hlit : c.lightning = true)
    (hena : config.activateLightningAnimation = true)
    (hsent : config.highWindsThreshold ≠ -1)
    (hhw : config.highWindsThreshold ≤ c.windSpeed ∨
      config.highWindsThreshold ≤ c.windGustSpeed)
    (hblink : config.windBlinkThreshold ≤ c.windSpeed ∨ c.windGust = true) :
    getColorForConditions (some c) false config = config.colors.lightning := by
  show (if truthyCategory c.flightCategory = false then _ else _) = _
  rw [hcat]
  have ht : truthyCategory (some s) = true := by
    simp [truthyCategory, hs]
  rw [ht]
  have hsl : showLightningFlag c false config = true := by
    simp [showLightningFlag, hena, hlit]
  simp [hsl]

theorem c1_lightning_beats_high_wind_witness :
    (mockConfig.highWindsThreshold ≤ (30 : Int) ∧
      mockConfig.windBlinkThreshold ≤ (30 : Int)) ∧
    getColorForConditions (some ⟨some "VFR", 30, 35, false, true⟩) false
      mockConfig = mockConfig.colors.lightning :=
  ⟨⟨by decide, by decide⟩,
    c1_lightning_beats_high_wind ⟨some "VFR", 30, 35, false, true⟩ mockConfig
      "VFR" rfl (by decide) rfl rfl (by decide) (Or.inl (by decide))
      (Or.inl (by decide))⟩

/-- A condition record whose category string lies outside the defined
enum while lightning is present — used to refute the unscoped version of
the defensive-fallback claim. -/
def badCategoryCondition : AirportConditions :=
  ⟨some "XXX", 0, 0, false, true⟩

/-- C9 counterexample: a category outside the enum does NOT always
produce the clear color — with lightning set and the lightning rule
matching, the resolver returns the lightning color, not clear. -/
theorem c9_counterexample_lightning_overrides_fallback :
    badCategoryCondition.flightCategory = some "XXX" ∧
    ("XXX" : String) ∉ (["VFR", "MVFR", "IFR", "LIFR"] : List String) ∧
    getColorForConditions (some badCategoryCondition) false mockConfig =
      mockConfig.colors.lightning ∧
    mockConfig.colors.lightning ≠ mockConfig.colors.clear := by
  refine ⟨rfl, by decide, by decide, by decide⟩

/-- C9 (amended): the resolver is total (never throws), and a category
value outside the defined enum falls back to rule 1's outcome — the
clear color — for every phase and configuration in which neither the
lightning rule nor the high-wind rule matches; those earlier animation
rules still take priority and return their own colors. -/
theorem c9_out_of_enum_clear_when_no_animation_rule
    (c : AirportConditions) (windCycle : Bool) (config : Config) (s : String)
    (hcat : c.flightCategory = some s)
    (hout : s ∉ (["VFR", "MVFR", "IFR", "LIFR"] : List String))
    (hnl : showLightningFlag c windCycle config = false)
    (hnh : isHighWindsFlag c windCycle config = false) :
    getColorForConditions (some c) windCycle config = config.colors.clear := by
  have h1 : s ≠ "VFR" := by rintro rfl; exact hout (by decide)
  have h2 : s ≠ "MVFR" := by rintro rfl; exact hout (by decide)
  have h3 : s ≠ "IFR" := by rintro rfl; exact hout (by decide)
  have h4 : s ≠ "LIFR" := by rintro rfl; exact hout (by decide)
  by_cases hs : s = ""
  · subst hs
    show (if truthyCategory c.flightCategory = false then _ else _) = _
    rw [hcat]
    rfl
  · show (if truthyCategory c.flightCategory = false then _ else _) = _
    rw [hcat]
    have ht : truthyCategory (some s) = true := by
      simp [truthyCategory, hs]
    rw [ht]
    simp only [hnl, hnh, Bool.false_eq_true, if_false, reduceIte]
    by_cases hw : isWindyFlag c windCycle config = true
    · simp only [hw, if_true, hcat]
      by_cases hf : config.fadeInsteadOfBlink = true
      · simp [hf, categoryFadeColor, h1, h2, h3, h4]
      · have hf' : config.fadeInsteadOfBlink = false := by
          cases hcfg : config.fadeInsteadOfBlink
          · rfl
          · exact absurd hcfg hf
        simp [hf']
    · have hw' : isWindyFlag c windCycle config = false := by
        cases hcfg : isWindyFlag c windCycle config
        · rfl
        · exact absurd hcfg hw
      simp only [hw', Bool.false_eq_true, if_false, hcat]
      simp [categoryColor, h1, h2, h3, h4]

theorem c9_out_of_enum_clear_when_no_animation_rule_witness :
    showLightningFlag ⟨some "XXX", 20, 0, false, false⟩ true mockConfig =
      false ∧
    isHighWindsFlag ⟨some "XXX", 20, 0, false, false⟩ true mockConfig =
      false ∧
    getColorForConditions (some ⟨some "XXX", 20, 0, false, false⟩) true
      mockConfig = mockConfig.colors.clear :=
  ⟨by decide, by decide,
    c9_out_of_enum_clear_when_no_animation_rule
      ⟨some "XXX", 20, 0, false, false⟩ true mockConfig "XXX" rfl (by decide)
      (by decide) (by decide)⟩

/-- The 6th legend slot (index 5) is the windy indicator. -/
lemma legend_wind_slot (windCycle : Bool) (config : Config) :
    (getLegendColors windCycle config).get? 5 =
      some (if config.activateWindAnimation then
        (if windCycle then
          (if config.fadeInsteadOfBlink then config.colors.vfrFade
           else config.colors.clear)
         else config.colors.vfr)
      else config.colors.clear) := rfl

/-- The test configuration with wind animation disabled. -/
def noWindAnimationConfig : Config :=
  { mockConfig with activateWindAnimation := false }

/-- A VFR condition above the blink threshold but below the high-wind
threshold, with no gusts and no lightning. -/
def windyVfrCondition : AirportConditions :=
  ⟨some "VFR", 20, 0, false, false⟩

/-- C8 counterexample: with wind animation disabled the legend's wind
indicator shows the clear color while the per-airport resolver shows the
VFR color for the very condition the claim describes, so the two do not
agree at every configuration. -/
theorem c8_counterexample_disabled_wind_animation :
    windyVfrCondition.flightCategory = some "VFR" ∧
    noWindAnimationConfig.windBlinkThreshold ≤ windyVfrCondition.windSpeed ∧
    windyVfrCondition.windSpeed < noWindAnimationConfig.highWindsThreshold ∧
    windyVfrCondition.windGustSpeed < noWindAnimationConfig.highWindsThreshold ∧
    windyVfrCondition.lightning = false ∧
    (getLegendColors true noWindAnimationConfig).get? 5 =
      some noWindAnimationConfig.colors.clear ∧
    getColorForConditions (some windyVfrCondition) true noWindAnimationConfig =
      noWindAnimationConfig.colors.vfr ∧
    noWindAnimationConfig.colors.vfr ≠ noWindAnimationConfig.colors.clear := by
  refine ⟨rfl, by decide, by decide, by decide, rfl, rfl, by decide, by decide⟩

/-- C8 (amended): for every phase and every configuration in which wind
animation is enabled, the legend's wind indicator (the 6th of the 7
legend colors) equals the resolver's color for a VFR condition whose
wind speed meets the blink threshold while neither wind nor gust speed
meets the high-wind threshold and that has no lightning.  (When wind
animation is disabled the legend slot is the clear color while the
resolver shows the VFR color — see the counterexample.) -/
theorem c8_legend_wind_indicator_matches_resolver
    (windCycle : Bool) (config : Config) (c : AirportConditions)
    (hwind : config.activateWindAnimation = true)
    (hcat : c.flightCategory = some "VFR")
    (hblink : config.windBlinkThreshold ≤ c.windSpeed)
    (hhw : config.highWindsThreshold = -1 ∨
      (c.windSpeed < config.highWindsThreshold ∧
        c.windGustSpeed < config.highWindsThreshold))
    (hlit : c.lightning = false) :
    (getLegendColors windCycle config).get? 5 =
      some (getColorForConditions (some c) windCycle config) := by
  rw [legend_wind_slot, hwind]
  have ht : truthyCategory c.flightCategory = true := by
    rw [hcat]; rfl
  have hsl : showLightningFlag c windCycle config = false := by
    simp [showLightningFlag, hlit]
  have hhwf : isHighWindsFlag c windCycle config = false := by
    rcases hhw with h | ⟨hws, hgs⟩
    · simp [isHighWindsFlag, h]
    · simp [isHighWindsFlag, not_le.mpr hws, not_le.mpr hgs]
  cases windCycle with
  | false =>
    have hw : isWindyFlag c false config = false := by
      simp [isWindyFlag]
    show _ = some (if truthyCategory c.flightCategory = false then _ else _)
    rw [ht]
    simp only [hsl, hhwf, hw, Bool.false_eq_true, if_false, reduceIte, hcat]
    simp [categoryColor]
  | true =>
    have hw : isWindyFlag c true config = true := by
      simp [isWindyFlag, hwind, hblink]
    show _ = some (if truthyCategory c.flightCategory = false then _ else _)
    rw [ht]
    simp only [hsl, hhwf, hw, Bool.false_eq_true, if_false, if_true, reduceIte,
      hcat]
    by_cases hf : config.fadeInsteadOfBlink = true
    · simp [hf, categoryFadeColor]
    · have hf' : config.fadeInsteadOfBlink = false := by
        cases hcfg : config.fadeInsteadOfBlink
        · rfl
        · exact absurd hcfg hf
      simp [hf']

theorem c8_legend_wind_indicator_matches_resolver_witness :
    mockConfig.activateWindAnimation = true ∧
    (getLegendColors true mockConfig).get? 5 =
      some (getColorForConditions (some windyVfrCondition) true mockConfig) :=
  ⟨rfl,
    c8_legend_wind_indicator_matches_resolver true mockConfig windyVfrCondition
      rfl rfl (by decide) (Or.inr ⟨by decide, by decide⟩) rfl⟩

/-! ## Raw-observation scanning (src/services/metarService.ts) -/

/-- Character-by-character test that `s` starts with `pat`. -/
def startsWithL : List Char → List Char → Bool
  | [], _ => true
  | _ :: _, [] => false
  | p :: ps, c :: cs => p == c && startsWithL ps cs

/-- JavaScript `String.prototype.includes`: does the second list contain
the first as a contiguous run? -/
def containsL (pat : List Char) : List Char → Bool
  | [] => pat.isEmpty
  | c :: cs => startsWithL pat (c :: cs) || containsL pat cs

/-- Mathematical substring containment: `pat` occurs contiguously
somewhere in `s`. -/
def OccursIn (pat s : List Char) : Prop :=
  ∃ pre post, s = pre ++ pat ++ post

lemma startsWithL_iff (pat s : List Char) :
    startsWithL pat s = true ↔ ∃ post, s = pat ++ post := by
  induction pat generalizing s with
  | nil =>
    constructor
    · intro _
      exact ⟨s, rfl⟩
    · intro _
      rfl
  | cons p ps ih =>
    cases s with
    | nil =>
      constructor
      · intro h
        exact absurd h (by simp [startsWithL])
      · rintro ⟨post, hpost⟩
        exact absurd hpost (by simp)
    | cons c cs =>
      show (p == c && startsWithL ps cs) = true ↔ _
      rw [Bool.and_eq_true, beq_iff_eq, ih]
      constructor
      · rintro ⟨rfl, post, rfl⟩
        exact ⟨post, rfl⟩
      · rintro ⟨post, hpost⟩
        rw [List.cons_append] at hpost
        injection hpost with h1 h2
        exact ⟨h1.symm, post, h2⟩

lemma containsL_iff (pat s : List Char) :
    containsL pat s = true ↔ OccursIn pat s := by
  induction s with
  | nil =>
    show pat.isEmpty = true ↔ _
    rw [List.isEmpty_iff]
    constructor
    · rintro rfl
      exact ⟨[], [], rfl⟩
    · rintro ⟨pre, post, hp⟩
      rcases List.append_eq_nil.mp ((List.append_assoc pre pat post ▸ hp).symm)
        with ⟨-, h2⟩
      exact (List.append_eq_nil.mp h2).1
  | cons c cs ih =>
    show (startsWithL pat (c :: cs) || containsL pat cs) = true ↔ _
    rw [Bool.or_eq_true, startsWithL_iff, ih]
    constructor
    · rintro (⟨post, hpost⟩ | ⟨pre, post, hp⟩)
      · exact ⟨[], post, by simpa using hpost⟩
      · exact ⟨c :: pre, post, by simp [hp]⟩
    · rintro ⟨pre, post, hp⟩
      cases pre with
      | nil => exact Or.inl ⟨post, by simpa using hp⟩
      | cons d ds =>
        rw [List.cons_append, List.cons_append] at hp
        injection hp with h1 h2
        exact Or.inr ⟨ds, post, by simpa using h2⟩

/-- `detectLightning` from src/services/metarService.ts: an empty raw
observation is falsy and yields `false`; the `TSNO` sentinel anywhere
forces `false`; otherwise the text after the 4-character station
identifier is scanned for `LTG` or `TS`. -/
def detectLightning (rawOb : String) : Bool :=
  if rawOb = "" then false
  else if containsL "TSNO".data rawOb.data then false
  else
    let relevant := rawOb.data.drop 4
    containsL "LTG".data relevant || containsL "TS".data relevant

/-- C7: the extracted lightning flag is true exactly when the raw
observation text minus its first 4 characters (the station identifier)
contains `LTG` or `TS`, except that a `TSNO` sentinel anywhere in the
text forces it false. -/
theorem c7_lightning_flag_characterization (rawOb : String) :
    detectLightning rawOb = true ↔
      ((OccursIn "LTG".data (rawOb.data.drop 4) ∨
        OccursIn "TS".data (rawOb.data.drop 4)) ∧
        ¬ OccursIn "TSNO".data rawOb.data) := by
  by_cases h0 : rawOb = ""
  · subst h0
    constructor
    · intro h
      exact absurd h (by decide)
    · rintro ⟨hocc | hocc, -⟩
      · obtain ⟨pre, post, hp⟩ := hocc
        exact absurd hp (by simp)
      · obtain ⟨pre, post, hp⟩ := hocc
        exact absurd hp (by simp)
  · rw [detectLightning, if_neg h0]
    by_cases hts : containsL "TSNO".data rawOb.data = true
    · rw [if_pos hts]
      constructor
      · intro h
        exact absurd h (by decide)
      · rintro ⟨-, hno⟩
        exact absurd ((containsL_iff _ _).mp hts) hno
    · rw [if_neg hts]
      show (containsL "LTG".data (rawOb.data.drop 4) ||
        containsL "TS".data (rawOb.data.drop 4)) = true ↔ _
      rw [Bool.or_eq_true, containsL_iff, containsL_iff]
      constructor
      · intro h
        exact ⟨h, fun hocc => hts ((containsL_iff _ _).mpr hocc)⟩
      · rintro ⟨h, -⟩
        exact h

theorem c7_lightning_flag_characterization_witness :
    detectLightning "KBOS 21010KT TS RA" = true :=
  (c7_lightning_flag_characterization "KBOS 21010KT TS RA").mpr
    ⟨Or.inr ⟨" 21010KT ".data, " RA".data, by decide⟩,
      fun hocc => absurd ((containsL_iff _ _).mpr hocc) (by decide)⟩

/-! ## Visibility parsing (src/utils/flightCategory.ts, `parseVisibility`) -/

/-- Whitespace trim on both ends (`String.prototype.trim`). -/
def trimL (cs : List Char) : List Char :=
  ((cs.dropWhile Char.isWhitespace).reverse.dropWhile Char.isWhitespace).reverse

/-- `input.replace('+', '')` with a string pattern: JavaScript removes
only the FIRST occurrence of `'+'`. -/
def removeFirstPlusL : List Char → List Char
  | [] => []
  | c :: cs => if c = '+' then cs else c :: removeFirstPlusL cs

/-- Decimal value of a run of digit characters. -/
def digitsVal (ds : List Char) : Nat :=
  ds.foldl (fun a c => a * 10 + (c.toNat - '0'.toNat)) 0

/-- The syntactic pieces of the longest decimal-literal prefix accepted
by JavaScript `parseFloat`: sign, integer digits, fraction digits, and
the signed exponent value. -/
structure FloatParts where
  neg : Bool
  ipart : List Char
  fpart : List Char
  expVal : Int
deriving DecidableEq, Repr

/-- Longest-prefix decimal parse in the manner of JavaScript
`parseFloat`: skip leading whitespace, optional sign, digits, optional
`.` with digits, optional exponent marker with optionally-signed digits
(an exponent marker not followed by a digit is ignored, as in
JavaScript).  `none` where `parseFloat` yields `NaN`.  (The non-finite
literal `Infinity` is outside the model, see the header note.) -/
def parseFloatParts (cs0 : List Char) : Option FloatParts :=
  let cs1 := cs0.dropWhile Char.isWhitespace
  let neg := cs1.head? = some '-'
  let cs2 := if cs1.head? = some '-' ∨ cs1.head? = some '+' then cs1.tail
    else cs1
  let ipart := cs2.takeWhile Char.isDigit
  let cs3 := cs2.dropWhile Char.isDigit
  let fpart := if cs3.head? = some '.' then cs3.tail.takeWhile Char.isDigit
    else []
  let cs4 := if cs3.head? = some '.' then cs3.tail.dropWhile Char.isDigit
    else cs3
  if ipart.isEmpty && fpart.isEmpty then none
  else
    let expVal : Int :=
      if cs4.head? = some 'e' ∨ cs4.head? = some 'E' then
        let cs5 := cs4.tail
        let esign : Int := if cs5.head? = some '-' then -1 else 1
        let cs6 := if cs5.head? = some '-' ∨ cs5.head? = some '+' then cs5.tail
          else cs5
        let edigits := cs6.takeWhile Char.isDigit
        if edigits.isEmpty then 0 else esign * (digitsVal edigits : Int)
      else 0
    some ⟨decide neg, ipart, fpart, expVal⟩

/-- Numeric value of parsed float pieces. -/
def partsValue (p : FloatParts) : Rat :=
  (if p.neg then -1 else 1) *
    ((digitsVal p.ipart : Rat) +
      (digitsVal p.fpart : Rat) / (10 : Rat) ^ p.fpart.length) *
    (10 : Rat) ^ p.expVal

/-- JavaScript `parseFloat` on a character list, as an optional rational
(finite values only). -/
def jsParseFloat (cs : List Char) : Option Rat :=
  (parseFloatParts cs).map partsValue

/-- The input type of `parseVisibility`
(`string | number | undefined`, with `null` also checked for). -/
inductive VisInput
  | absent
  | num (x : Rat)
  | str (s : String)

/-- `parseVisibility` from src/utils/flightCategory.ts: `null`/absent →
`none`; a number is returned when non-negative; a string has its first
`'+'` removed, is trimmed, and is parsed with `parseFloat`, rejecting
empty, unparseable and negative results. -/
def parseVisibility : VisInput → Option Rat
  | .absent => none
  | .num x => if 0 ≤ x then some x else none
  | .str s =>
    let cleaned := trimL (removeFirstPlusL s.data)
    if cleaned.isEmpty then none
    else
      match jsParseFloat cleaned with
      | none => none
      | some v => if v < 0 then none else some v

lemma removeFirstPlus_append (xs : List Char) (h : '+' ∉ xs) :
    removeFirstPlusL (xs ++ ['+']) = xs := by
  induction xs with
  | nil => rfl
  | cons c cs ih =>
    rw [List.cons_append, removeFirstPlusL]
    have hc' : ¬c = '+' := fun hc => h (List.mem_cons.mpr (Or.inl hc.symm))
    rw [if_neg hc']
    rw [ih (fun hm => h (List.mem_cons_of_mem c hm))]

/-- C6 counterexample: the source removes the FIRST `'+'`, not a trailing
one.  The string `"1+1+"` has the form `X+` with `X = "1+1"`, and `X`
parses (by longest-prefix `parseFloat`) to the non-negative value 1; yet
`parseVisibility` returns 11, not 1, because deleting the first `'+'`
turns the text into `"11+"`. -/
theorem c6_counterexample_first_plus_not_trailing :
    jsParseFloat (trimL ("1+1" : String).data) = some 1 ∧ (0 : Rat) ≤ 1 ∧
    parseVisibility (.str ("1+1" ++ "+")) = some 11 ∧ (11 : Rat) ≠ 1 := by
  refine ⟨?_, by norm_num, ?_, by norm_num⟩
  · rw [jsParseFloat, show parseFloatParts (trimL ("1+1".data)) =
      some ⟨false, ['1'], [], 0⟩ from by decide]
    show some (partsValue ⟨false, ['1'], [], 0⟩) = some 1
    norm_num [partsValue, show digitsVal ['1'] = 1 from by decide,
      show digitsVal ([] : List Char) = 0 from by decide]
  · rw [parseVisibility, show trimL (removeFirstPlusL (("1+1" ++ "+").data)) =
      "11+".data from by decide]
    rw [if_neg (by decide)]
    rw [jsParseFloat, show parseFloatParts ("11+".data) =
      some ⟨false, ['1', '1'], [], 0⟩ from by decide]
    show (if partsValue ⟨false, ['1', '1'], [], 0⟩ < 0 then none
      else some (partsValue ⟨false, ['1', '1'], [], 0⟩)) = some 11
    rw [show partsValue ⟨false, ['1', '1'], [], 0⟩ = 11 from by
      norm_num [partsValue, show digitsVal ['1', '1'] = 11 from by decide,
        show digitsVal ([] : List Char) = 0 from by decide]]
    norm_num

/-- C6 (amended): `parseVisibility` returns X for every string of the
form `X+` where X contains no `'+'` and parses (after trimming, by
`parseFloat`) as a non-negative number — for such strings the removed
first `'+'` is exactly the trailing one; it returns UNKNOWN (`none`)
for every negative input whether given as a string or a number, for
empty/unparseable strings, and for null/absent input. -/
theorem c6_parse_visibility_behavior :
    (∀ (X : String) (x : Rat), '+' ∉ X.data →
        jsParseFloat (trimL X.data) = some x → 0 ≤ x →
        parseVisibility (.str (X ++ "+")) = some x) ∧
    (∀ x : Rat, x < 0 → parseVisibility (.num x) = none) ∧
    (∀ (s : String) (x : Rat),
        jsParseFloat (trimL (removeFirstPlusL s.data)) = some x → x < 0 →
        parseVisibility (.str s) = none) ∧
    (∀ s : String, jsParseFloat (trimL (removeFirstPlusL s.data)) = none →
        parseVisibility (.str s) = none) ∧
    parseVisibility .absent = none := by
  refine ⟨?_, ?_, ?_, ?_, rfl⟩
  · intro X x hplus hparse hx
    rw [parseVisibility,
      show (X ++ "+").data = X.data ++ ['+'] from rfl,
      removeFirstPlus_append X.data hplus]
    have hne : (trimL X.data).isEmpty ≠ true := by
      intro he
      rw [List.isEmpty_iff.mp he] at hparse
      rw [show jsParseFloat ([] : List Char) = none from rfl] at hparse
      exact Option.noConfusion hparse
    rw [if_neg hne, hparse]
    show (if x < 0 then none else some x) = some x
    rw [if_neg (not_lt.mpr hx)]
  · intro x hx
    show (if 0 ≤ x then some x else none) = none
    rw [if_neg (not_le.mpr hx)]
  · intro s x hparse hx
    rw [parseVisibility]
    by_cases he : (trimL (removeFirstPlusL s.data)).isEmpty = true
    · rw [if_pos he]
    · rw [if_neg he, hparse]
      show (if x < 0 then none else some x) = none
      rw [if_pos hx]
  · intro s hparse
    rw [parseVisibility]
    by_cases he : (trimL (removeFirstPlusL s.data)).isEmpty = true
    · rw [if_pos he]
    · rw [if_neg he, hparse]

theorem c6_parse_visibility_behavior_witness :
    ('+' ∉ ("10" : String).data ∧
      jsParseFloat (trimL ("10" : String).data) = some 10 ∧ (0 : Rat) ≤ 10 ∧
      parseVisibility (.str ("10" ++ "+")) = some 10) ∧
    ((-1 : Rat) < 0 ∧ parseVisibility (.num (-1)) = none) ∧
    (jsParseFloat (trimL (removeFirstPlusL ("-2" : String).data)) =
        some (-2) ∧ (-2 : Rat) < 0 ∧ parseVisibility (.str "-2") = none) ∧
    (jsParseFloat (trimL (removeFirstPlusL ("abc" : String).data)) = none ∧
      parseVisibility (.str "abc") = none) ∧
    parseVisibility .absent = none := by
  have h10 : jsParseFloat (trimL ("10" : String).data) = some 10 := by
    rw [jsParseFloat, show parseFloatParts (trimL ("10".data)) =
      some ⟨false, ['1', '0'], [], 0⟩ from by decide]
    show some (partsValue ⟨false, ['1', '0'], [], 0⟩) = some 10
    norm_num [partsValue, show digitsVal ['1', '0'] = 10 from by decide,
      show digitsVal ([] : List Char) = 0 from by decide]
  have hm2 : jsParseFloat (trimL (removeFirstPlusL ("-2" : String).data)) =
      some (-2) := by
    rw [jsParseFloat, show trimL (removeFirstPlusL ("-2".data)) = "-2".data
        from by decide,
      show parseFloatParts ("-2".data) = some ⟨true, ['2'], [], 0⟩
        from by decide]
    show some (partsValue ⟨true, ['2'], [], 0⟩) = some (-2)
    norm_num [partsValue, show digitsVal ['2'] = 2 from by decide,
      show digitsVal ([] : List Char) = 0 from by decide]
  have habc : jsParseFloat (trimL (removeFirstPlusL ("abc" : String).data)) =
      none := by decide
  exact ⟨⟨by decide, h10, by norm_num,
      c6_parse_visibility_behavior.1 "10" 10 (by decide) h10 (by norm_num)⟩,
    ⟨by norm_num, c6_parse_visibility_behavior.2.1 (-1) (by norm_num)⟩,
    ⟨hm2, by norm_num,
      c6_parse_visibility_behavior.2.2.1 "-2" (-2) hm2 (by norm_num)⟩,
    ⟨habc, c6_parse_visibility_behavior.2.2.2.1 "abc" habc⟩,
    c6_parse_visibility_behavior.2.2.2.2⟩

end MetarMap
